import Mathlib

/-!
Shallow embedding of `src/config.rs` of the trippy repository: the CLI
configuration model (`Args`), the derived configuration (`TrippyConfig`),
the validation rules, and the `TryFrom<(Args, u16)>` construction.

Durations are modelled in nanoseconds as `Nat`.  The external
`humantime::parse_duration` and `std::net::IpAddr::from_str` parsers are
third-party code, so the construction is parameterised over abstract
parsing functions (`Option`-valued: `none` models a parse failure).
-/

namespace Trippy

/-- The maximum number of hops we allow (config.rs line 11): `u8::MAX as usize`. -/
def MAX_HOPS : Nat := 255

/-- The minimum TUI refresh rate (config.rs line 14), in nanoseconds. -/
def TUI_MIN_REFRESH_RATE_MS : Nat := 50 * 1000000

/-- The maximum TUI refresh rate (config.rs line 17), in nanoseconds. -/
def TUI_MAX_REFRESH_RATE_MS : Nat := 1000 * 1000000

/-- The minimum grace duration (config.rs line 20), in nanoseconds. -/
def MIN_GRACE_DURATION_MS : Nat := 10 * 1000000

/-- The maximum grace duration (config.rs line 23), in nanoseconds. -/
def MAX_GRACE_DURATION_MS : Nat := 1000 * 1000000

/-- The minimum packet size we allow (config.rs line 26). -/
def MIN_PACKET_SIZE : Nat := 28

/-- The maximum packet size we allow (config.rs line 29). -/
def MAX_PACKET_SIZE : Nat := 1024

/-- The tool mode (config.rs lines 32-46). -/
inductive Mode
  | Tui
  | Stream
  | Pretty
  | Markdown
  | Csv
  | Json
deriving DecidableEq, Repr

/-- The tracing protocol as given on the command line (config.rs lines 49-57). -/
inductive TraceProtocol
  | Icmp
  | Udp
  | Tcp
deriving DecidableEq, Repr

/-- How to render the addresses (config.rs lines 60-68). -/
inductive AddressMode
  | IP
  | Host
  | Both
deriving DecidableEq, Repr

/-- How DNS queries will be resolved (config.rs lines 71-81). -/
inductive DnsResolveMethod
  | System
  | Resolv
  | Google
  | Cloudflare
deriving DecidableEq, Repr

/-- Modelled from the spec: the tracer-side protocol enum `trippy::tracing::TracerProtocol`
(declared outside `src/`); a closed three-variant enum mirroring the CLI protocol. -/
inductive TracerProtocol
  | Icmp
  | Udp
  | Tcp
deriving DecidableEq, Repr

/-- Modelled from the spec: the address family `trippy::tracing::TracerAddrFamily`
(declared outside `src/`); IPv4 or IPv6. -/
inductive TracerAddrFamily
  | Ipv4
  | Ipv6
deriving DecidableEq, Repr

/-- Modelled from the spec: `trippy::tracing::PortDirection` (declared outside `src/`),
a tagged choice of which port is held fixed; `new_fixed_src` and `new_fixed_dest`
are the evident constructors. -/
inductive PortDirection
  | none
  | fixedSrc (port : Nat)
  | fixedDest (port : Nat)
deriving DecidableEq, Repr

/-- Modelled from the spec: a typed IP address value, the output of the primitive
address parser (`std::net::IpAddr`, outside this repository).  Its internal
structure is irrelevant to the configuration logic. -/
structure IpAddr where
  text : String
deriving DecidableEq, Repr

/-- One constructor per distinct error site of `config.rs`; each `anyhow!` message
corresponds to exactly one constructor, with the interpolated values as fields. -/
inductive ConfigError
  | minRoundDurationFormat
  | maxRoundDurationFormat
  | graceDurationFormat
  | sourceAddressFormat (addr : String)
  | sourcePortTooLow (port : Nat)
  | conflictingPorts
  | tuiRefreshRateFormat
  | dnsTimeoutFormat
  | tcpIpv6Unsupported
  | multiTargetModeUnsupported
  | multiTargetProtocolUnsupported
  | firstTtlOutOfRange (first_ttl : Nat)
  | maxTtlOutOfRange (max_ttl : Nat)
  | ttlOrderInvalid (first_ttl max_ttl : Nat)
  | maxInflightZero (max_inflight : Nat)
  | roundDurationOrderInvalid (mi ma : Nat)
  | graceDurationOutOfRange (g : Nat)
  | packetSizeOutOfRange (p : Nat)
  | tuiRefreshRateOutOfRange (r : Nat)
  | reportCyclesZero (c : Nat)
  | asLookupUnsupported
deriving DecidableEq, Repr

/-- Modelled from the spec: the error taxonomy of spec section 7; a RangeError is a
numeric field outside its allowed interval. -/
def ConfigError.isRangeError : ConfigError → Bool
  | .firstTtlOutOfRange _ => true
  | .maxTtlOutOfRange _ => true
  | .ttlOrderInvalid _ _ => true
  | .maxInflightZero _ => true
  | .roundDurationOrderInvalid _ _ => true
  | .graceDurationOutOfRange _ => true
  | .packetSizeOutOfRange _ => true
  | .tuiRefreshRateOutOfRange _ => true
  | .reportCyclesZero _ => true
  | _ => false

/-- The raw command-line arguments (config.rs lines 86-210).  Duration-valued
fields are the raw strings; `u8`, `u16` and `usize` fields are `Nat`. -/
structure Args where
  targets : List String
  mode : Mode
  protocol : TraceProtocol
  ipv4 : Bool
  ipv6 : Bool
  target_port : Option Nat
  source_port : Option Nat
  source_address : Option String
  interface : Option String
  min_round_duration : String
  max_round_duration : String
  initial_sequence : Nat
  grace_duration : String
  max_inflight : Nat
  first_ttl : Nat
  max_ttl : Nat
  packet_size : Nat
  payload_pattern : Nat
  tos : Nat
  dns_resolve_method : DnsResolveMethod
  dns_timeout : String
  dns_lookup_as_info : Bool
  tui_address_mode : AddressMode
  tui_max_addrs : Option Nat
  tui_max_samples : Nat
  tui_preserve_screen : Bool
  tui_refresh_rate : String
  report_cycles : Nat
deriving DecidableEq, Repr

/-- The fully parsed and validated configuration (config.rs lines 213-241). -/
structure TrippyConfig where
  targets : List String
  protocol : TracerProtocol
  addr_family : TracerAddrFamily
  first_ttl : Nat
  max_ttl : Nat
  min_round_duration : Nat
  max_round_duration : Nat
  grace_duration : Nat
  max_inflight : Nat
  initial_sequence : Nat
  tos : Nat
  packet_size : Nat
  payload_pattern : Nat
  source_addr : Option IpAddr
  interface : Option String
  port_direction : PortDirection
  dns_timeout : Nat
  dns_resolve_method : DnsResolveMethod
  dns_lookup_as_info : Bool
  tui_max_samples : Nat
  tui_preserve_screen : Bool
  tui_refresh_rate : Nat
  tui_address_mode : AddressMode
  tui_max_addrs : Option Nat
  mode : Mode
  report_cycles : Nat
  max_rounds : Option Nat
deriving DecidableEq, Repr

/-- Conversion of the CLI protocol to the tracer protocol (config.rs lines 248-252). -/
def convertProtocol : TraceProtocol → TracerProtocol
  | .Icmp => .Icmp
  | .Udp => .Udp
  | .Tcp => .Tcp

/-- Validate the protocol and address family (config.rs lines 334-344). -/
def validate_addr_family (protocol : TraceProtocol) (addr_family : TracerAddrFamily) :
    Except ConfigError Unit :=
  match addr_family, protocol with
  | .Ipv6, .Tcp => .error .tcpIpv6Unsupported
  | _, _ => .ok ()

/-- Multiple targets are allowed only for the Tui and for Icmp tracing
(config.rs lines 347-365); the two guarded match arms become guarded branches. -/
def validate_multi (mode : Mode) (protocol : TraceProtocol) (targets : List String) :
    Except ConfigError Unit :=
  if (match mode with
      | .Stream | .Pretty | .Markdown | .Csv | .Json => true
      | .Tui => false) && targets.length > 1 then
    .error .multiTargetModeUnsupported
  else if (match protocol with
      | .Tcp | .Udp => true
      | .Icmp => false) && targets.length > 1 then
    .error .multiTargetProtocolUnsupported
  else
    .ok ()

/-- Validate `first_ttl` and `max_ttl` (config.rs lines 368-384). -/
def validate_ttl (first_ttl max_ttl : Nat) : Except ConfigError Unit :=
  if first_ttl < 1 || first_ttl > MAX_HOPS then
    .error (.firstTtlOutOfRange first_ttl)
  else if max_ttl < 1 || max_ttl > MAX_HOPS then
    .error (.maxTtlOutOfRange max_ttl)
  else if first_ttl > max_ttl then
    .error (.ttlOrderInvalid first_ttl max_ttl)
  else
    .ok ()

/-- Validate `max_inflight` (config.rs lines 387-396). -/
def validate_max_inflight (max_inflight : Nat) : Except ConfigError Unit :=
  if max_inflight = 0 then
    .error (.maxInflightZero max_inflight)
  else
    .ok ()

/-- Validate `min_round_duration` and `max_round_duration` (config.rs lines 399-412). -/
def validate_round_duration (min_round_duration max_round_duration : Nat) :
    Except ConfigError Unit :=
  if min_round_duration > max_round_duration then
    .error (.roundDurationOrderInvalid min_round_duration max_round_duration)
  else
    .ok ()

/-- Validate `grace_duration` (config.rs lines 415-426). -/
def validate_grace_duration (grace_duration : Nat) : Except ConfigError Unit :=
  if grace_duration < MIN_GRACE_DURATION_MS || grace_duration > MAX_GRACE_DURATION_MS then
    .error (.graceDurationOutOfRange grace_duration)
  else
    .ok ()

/-- Validate `packet_size` (config.rs lines 429-440). -/
def validate_packet_size (packet_size : Nat) : Except ConfigError Unit :=
  if MIN_PACKET_SIZE ≤ packet_size ∧ packet_size ≤ MAX_PACKET_SIZE then
    .ok ()
  else
    .error (.packetSizeOutOfRange packet_size)

/-- Validate `source_port` (config.rs lines 443-449). -/
def validate_source_port (source_port : Nat) : Except ConfigError Unit :=
  if source_port < 1024 then
    .error (.sourcePortTooLow source_port)
  else
    .ok ()

/-- Validate `tui_refresh_rate` (config.rs lines 452-463). -/
def validate_tui_refresh_rate (tui_refresh_rate : Nat) : Except ConfigError Unit :=
  if tui_refresh_rate < TUI_MIN_REFRESH_RATE_MS || tui_refresh_rate > TUI_MAX_REFRESH_RATE_MS then
    .error (.tuiRefreshRateOutOfRange tui_refresh_rate)
  else
    .ok ()

/-- Validate `report_cycles` (config.rs lines 466-475). -/
def validate_report_cycles (report_cycles : Nat) : Except ConfigError Unit :=
  if report_cycles = 0 then
    .error (.reportCyclesZero report_cycles)
  else
    .ok ()

/-- Validate `dns_resolve_method` and `dns_lookup_as_info` (config.rs lines 478-488). -/
def validate_dns (dns_resolve_method : DnsResolveMethod) (dns_lookup_as_info : Bool) :
    Except ConfigError Unit :=
  match dns_resolve_method with
  | .System => if dns_lookup_as_info then .error .asLookupUnsupported else .ok ()
  | _ => .ok ()

/-- Parsing of the optional source address (config.rs lines 256-263):
`map`/`transpose` over the abstract address parser. -/
def parse_source_address (parse_addr : String → Option IpAddr) :
    Option String → Except ConfigError (Option IpAddr)
  | Option.none => .ok Option.none
  | some addr =>
    match parse_addr addr with
    | Option.none => .error (.sourceAddressFormat addr)
    | some ip => .ok (some ip)

/-- Derivation of the port direction (config.rs lines 264-279), in source arm order:
Icmp first, then the Udp and Tcp default and explicit-source arms, then the
target-only arm, then the conflicting case. -/
def derivePortDirection (protocol : TraceProtocol)
    (source_port target_port : Option Nat) (pid : Nat) :
    Except ConfigError PortDirection :=
  match protocol, source_port, target_port with
  | .Icmp, _, _ => .ok PortDirection.none
  | .Udp, Option.none, Option.none => .ok (.fixedSrc (Nat.max pid 1024))
  | .Udp, some src, Option.none =>
    match validate_source_port src with
    | .error e => .error e
    | .ok _ => .ok (.fixedSrc src)
  | .Tcp, Option.none, Option.none => .ok (.fixedDest 80)
  | .Tcp, some src, Option.none => .ok (.fixedSrc src)
  | _, Option.none, some dest => .ok (.fixedDest dest)
  | _, some _, some _ => .error .conflictingPorts

/-- Derivation of the address family from the IPv6 flag (config.rs lines 280-284). -/
def derive_addr_family (ipv6 : Bool) : TracerAddrFamily :=
  if ipv6 then .Ipv6 else .Ipv4

/-- Derivation of the round-count cap from the mode (config.rs lines 287-290). -/
def derive_max_rounds (mode : Mode) (report_cycles : Nat) : Option Nat :=
  match mode with
  | .Stream | .Tui => Option.none
  | .Pretty | .Markdown | .Csv | .Json => some report_cycles

/-- The whole construction `TryFrom<(Args, u16)> for TrippyConfig`
(config.rs lines 243-331), with every fallible step in source order:
duration parses, source-address parse, port-direction derivation, the two
remaining duration parses, the ten validation calls, then assembly. -/
def try_from (parse_duration : String → Option Nat) (parse_addr : String → Option IpAddr)
    (args : Args) (pid : Nat) : Except ConfigError TrippyConfig :=
  match parse_duration args.min_round_duration with
  | Option.none => .error .minRoundDurationFormat
  | some min_round_duration =>
    match parse_duration args.max_round_duration with
    | Option.none => .error .maxRoundDurationFormat
    | some max_round_duration =>
      match parse_duration args.grace_duration with
      | Option.none => .error .graceDurationFormat
      | some grace_duration =>
        match parse_source_address parse_addr args.source_address with
        | .error e => .error e
        | .ok source_address =>
          match derivePortDirection args.protocol args.source_port args.target_port pid with
          | .error e => .error e
          | .ok port_direction =>
            match parse_duration args.tui_refresh_rate with
            | Option.none => .error .tuiRefreshRateFormat
            | some tui_refresh_rate =>
              match parse_duration args.dns_timeout with
              | Option.none => .error .dnsTimeoutFormat
              | some dns_timeout =>
                match validate_addr_family args.protocol (derive_addr_family args.ipv6) with
                | .error e => .error e
                | .ok _ =>
                  match validate_multi args.mode args.protocol args.targets with
                  | .error e => .error e
                  | .ok _ =>
                    match validate_ttl args.first_ttl args.max_ttl with
                    | .error e => .error e
                    | .ok _ =>
                      match validate_max_inflight args.max_inflight with
                      | .error e => .error e
                      | .ok _ =>
                        match validate_round_duration min_round_duration max_round_duration with
                        | .error e => .error e
                        | .ok _ =>
                          match validate_grace_duration grace_duration with
                          | .error e => .error e
                          | .ok _ =>
                            match validate_packet_size args.packet_size with
                            | .error e => .error e
                            | .ok _ =>
                              match validate_tui_refresh_rate tui_refresh_rate with
                              | .error e => .error e
                              | .ok _ =>
                                match validate_report_cycles args.report_cycles with
                                | .error e => .error e
                                | .ok _ =>
                                  match validate_dns args.dns_resolve_method args.dns_lookup_as_info with
                                  | .error e => .error e
                                  | .ok _ =>
                                    .ok {
                                      targets := args.targets
                                      protocol := convertProtocol args.protocol
                                      addr_family := derive_addr_family args.ipv6
                                      first_ttl := args.first_ttl
                                      max_ttl := args.max_ttl
                                      min_round_duration := min_round_duration
                                      max_round_duration := max_round_duration
                                      grace_duration := grace_duration
                                      max_inflight := args.max_inflight
                                      initial_sequence := args.initial_sequence
                                      tos := args.tos
                                      packet_size := args.packet_size
                                      payload_pattern := args.payload_pattern
                                      source_addr := source_address
                                      interface := args.interface
                                      port_direction := port_direction
                                      dns_timeout := dns_timeout
                                      dns_resolve_method := args.dns_resolve_method
                                      dns_lookup_as_info := args.dns_lookup_as_info
                                      tui_max_samples := args.tui_max_samples
                                      tui_preserve_screen := args.tui_preserve_screen
                                      tui_refresh_rate := tui_refresh_rate
                                      tui_address_mode := args.tui_address_mode
                                      tui_max_addrs := args.tui_max_addrs
                                      mode := args.mode
                                      report_cycles := args.report_cycles
                                      max_rounds := derive_max_rounds args.mode args.report_cycles
                                    }

/-- Boolean success observer for the construction. -/
def isOkB (e : Except ConfigError TrippyConfig) : Bool :=
  match e with
  | .ok _ => true
  | .error _ => false

/-- Value of a successful construction, with a fallback for the error case. -/
def cfgOf (e : Except ConfigError TrippyConfig) (dflt : TrippyConfig) : TrippyConfig :=
  match e with
  | .ok c => c
  | .error _ => dflt

/-- Concrete duration parser used for evaluating the construction on explicit
inputs: it accepts exactly the default duration strings of the CLI, mapping
them to nanoseconds. -/
def testParseDuration (s : String) : Option Nat :=
  if s = "1s" then some 1000000000
  else if s = "100ms" then some 100000000
  else if s = "5s" then some 5000000000
  else Option.none

/-- Concrete address parser used for evaluating the construction on explicit
inputs; no input in the evaluations carries a source address. -/
def testParseAddr (_ : String) : Option IpAddr :=
  Option.none

/-- Arguments with every optional field absent and every defaulted field at its
clap default (config.rs lines 86-210). -/
def baseArgs (targets : List String) : Args where
  targets := targets
  mode := .Tui
  protocol := .Icmp
  ipv4 := false
  ipv6 := false
  target_port := Option.none
  source_port := Option.none
  source_address := Option.none
  interface := Option.none
  min_round_duration := "1s"
  max_round_duration := "1s"
  initial_sequence := 33000
  grace_duration := "100ms"
  max_inflight := 24
  first_ttl := 1
  max_ttl := 64
  packet_size := 84
  payload_pattern := 0
  tos := 0
  dns_resolve_method := .System
  dns_timeout := "5s"
  dns_lookup_as_info := false
  tui_address_mode := .Host
  tui_max_addrs := Option.none
  tui_max_samples := 256
  tui_preserve_screen := false
  tui_refresh_rate := "100ms"
  report_cycles := 10

/-- Fallback configuration value for `cfgOf`, never produced by `try_from`
in any of the evaluations that use it. -/
def dummyConfig : TrippyConfig where
  targets := []
  protocol := .Icmp
  addr_family := .Ipv4
  first_ttl := 0
  max_ttl := 0
  min_round_duration := 0
  max_round_duration := 0
  grace_duration := 0
  max_inflight := 0
  initial_sequence := 0
  tos := 0
  packet_size := 0
  payload_pattern := 0
  source_addr := Option.none
  interface := Option.none
  port_direction := PortDirection.none
  dns_timeout := 0
  dns_resolve_method := .System
  dns_lookup_as_info := false
  tui_max_samples := 0
  tui_preserve_screen := false
  tui_refresh_rate := 0
  tui_address_mode := .IP
  tui_max_addrs := Option.none
  mode := .Tui
  report_cycles := 0
  max_rounds := Option.none

/-- Arguments with both ports supplied under the default Icmp protocol. -/
def icmpBothPortsArgs : Args :=
  { baseArgs ["a"] with source_port := some 80, target_port := some 443 }

/-- Arguments with both ports supplied under Udp. -/
def udpBothPortsArgs : Args :=
  { baseArgs ["a"] with protocol := .Udp, source_port := some 80, target_port := some 443 }

/-- Tcp arguments with an explicit source port below 1024. -/
def tcpLowSourceArgs : Args :=
  { baseArgs ["a"] with protocol := .Tcp, source_port := some 80 }

/-- Udp arguments with an explicit source port below 1024. -/
def udpLowSourceArgs : Args :=
  { baseArgs ["a"] with protocol := .Udp, source_port := some 80 }

/-- Two targets in the Stream mode under Icmp. -/
def streamTwoTargetsArgs : Args :=
  { baseArgs ["a", "b"] with mode := .Stream }

/-- Stream-mode arguments with a zero report-cycle count. -/
def streamZeroCyclesArgs : Args :=
  { baseArgs ["a"] with mode := .Stream, report_cycles := 0 }

/-- Udp arguments with no explicit port. -/
def udpDefaultArgs : Args :=
  { baseArgs ["a"] with protocol := .Udp }

/-- Arguments violating the ttl ordering rule. -/
def ttlBadArgs : Args :=
  { baseArgs ["a"] with first_ttl := 10, max_ttl := 5 }

/-- Arguments violating both the ttl ordering rule and the packet-size rule. -/
def ttlAndPacketBadArgs : Args :=
  { baseArgs ["a"] with first_ttl := 10, max_ttl := 5, packet_size := 2000 }

/-- First error of an ordered list of rule results (spec section 4.3: the first
violated rule determines the reported error). -/
def firstError : List (Except ConfigError Unit) → Option ConfigError
  | [] => Option.none
  | .error e :: _ => some e
  | .ok _ :: rest => firstError rest

/-- The ten validation rules of the rule set, in the evaluation order of
`try_from` (config.rs lines 291-300), applied to the raw and parsed fields. -/
def validationSequence (args : Args)
    (min_round_duration max_round_duration grace_duration tui_refresh_rate : Nat) :
    List (Except ConfigError Unit) :=
  [validate_addr_family args.protocol (derive_addr_family args.ipv6),
   validate_multi args.mode args.protocol args.targets,
   validate_ttl args.first_ttl args.max_ttl,
   validate_max_inflight args.max_inflight,
   validate_round_duration min_round_duration max_round_duration,
   validate_grace_duration grace_duration,
   validate_packet_size args.packet_size,
   validate_tui_refresh_rate tui_refresh_rate,
   validate_report_cycles args.report_cycles,
   validate_dns args.dns_resolve_method args.dns_lookup_as_info]

/-- Inversion of a successful construction: every validation rule passed, and
the derived fields of the produced configuration are the derivations of the
raw fields. -/
theorem try_from_ok_inv (parse_duration : String → Option Nat)
    (parse_addr : String → Option IpAddr) (args : Args) (pid : Nat) (cfg : TrippyConfig)
    (h : try_from parse_duration parse_addr args pid = .ok cfg) :
    derivePortDirection args.protocol args.source_port args.target_port pid
        = .ok cfg.port_direction
    ∧ validate_addr_family args.protocol (derive_addr_family args.ipv6) = .ok ()
    ∧ validate_multi args.mode args.protocol args.targets = .ok ()
    ∧ validate_ttl args.first_ttl args.max_ttl = .ok ()
    ∧ validate_max_inflight args.max_inflight = .ok ()
    ∧ validate_round_duration cfg.min_round_duration cfg.max_round_duration = .ok ()
    ∧ validate_grace_duration cfg.grace_duration = .ok ()
    ∧ validate_packet_size args.packet_size = .ok ()
    ∧ validate_tui_refresh_rate cfg.tui_refresh_rate = .ok ()
    ∧ validate_report_cycles args.report_cycles = .ok ()
    ∧ validate_dns args.dns_resolve_method args.dns_lookup_as_info = .ok ()
    ∧ cfg.addr_family = derive_addr_family args.ipv6
    ∧ cfg.max_rounds = derive_max_rounds args.mode args.report_cycles
    ∧ cfg.first_ttl = args.first_ttl
    ∧ cfg.max_ttl = args.max_ttl
    ∧ cfg.report_cycles = args.report_cycles
    ∧ cfg.mode = args.mode
    ∧ cfg.protocol = convertProtocol args.protocol := by
  unfold try_from at h
  repeat' split at h
  all_goals try exact Except.noConfusion h
  injection h with h
  subst h
  refine ⟨by assumption, by assumption, by assumption, by assumption, by assumption,
    by assumption, by assumption, by assumption, by assumption, by assumption,
    by assumption, rfl, rfl, rfl, rfl, rfl, rfl, rfl⟩

/-- A failed port-direction derivation makes the whole construction fail. -/
theorem isOkB_false_of_derive_error (parse_duration : String → Option Nat)
    (parse_addr : String → Option IpAddr) (args : Args) (pid : Nat) (e : ConfigError)
    (hd : derivePortDirection args.protocol args.source_port args.target_port pid = .error e) :
    isOkB (try_from parse_duration parse_addr args pid) = false := by
  cases hr : try_from parse_duration parse_addr args pid with
  | ok cfg =>
    have hinv := (try_from_ok_inv parse_duration parse_addr args pid cfg hr).1
    rw [hd] at hinv
    exact Except.noConfusion hinv
  | error e => rfl

/-- With both ports supplied and a UDP or TCP protocol, the derivation hits the
conflicting arm (config.rs lines 274-278). -/
theorem derivePortDirection_conflict (protocol : TraceProtocol) (s t pid : Nat)
    (h : protocol = .Udp ∨ protocol = .Tcp) :
    derivePortDirection protocol (some s) (some t) pid = .error .conflictingPorts := by
  rcases h with h | h <;> subst h <;> rfl

/-- Characterisation of a passing ttl rule. -/
theorem validate_ttl_ok_iff (first_ttl max_ttl : Nat) :
    validate_ttl first_ttl max_ttl = .ok ()
      ↔ 1 ≤ first_ttl ∧ first_ttl ≤ max_ttl ∧ max_ttl ≤ 255 := by
  unfold validate_ttl MAX_HOPS
  repeat' split
  all_goals simp_all
  all_goals omega

/-- Characterisation of a passing multi-target rule: at most one target, or
the Tui mode with Icmp tracing. -/
theorem validate_multi_ok_iff (mode : Mode) (protocol : TraceProtocol) (targets : List String) :
    validate_multi mode protocol targets = .ok ()
      ↔ targets.length ≤ 1 ∨ (mode = .Tui ∧ protocol = .Icmp) := by
  cases mode <;> cases protocol <;>
    simp only [validate_multi] <;> split_ifs <;> simp_all

/-- Characterisation of a passing source-port rule. -/
theorem validate_source_port_ok_iff (source_port : Nat) :
    validate_source_port source_port = .ok () ↔ 1024 ≤ source_port := by
  unfold validate_source_port
  split <;> simp_all

/-- Claim C1 (counterexample): with the protocol left at Icmp and both ports
supplied, the construction does not fail with the conflict error; it succeeds,
and the ports are ignored (port direction None). -/
theorem c1_counterexample :
    isOkB (try_from testParseDuration testParseAddr icmpBothPortsArgs 500) = true
    ∧ (cfgOf (try_from testParseDuration testParseAddr icmpBothPortsArgs 500)
        dummyConfig).port_direction = PortDirection.none := by
  constructor <;> rfl

/-- Claim C1 (amended): with both ports supplied, a Udp or Tcp protocol makes
the port derivation fail with the conflicting-ports error and the construction
never succeeds; under Icmp the ports are ignored and any successful
configuration carries the port direction None. -/
theorem c1_conflicting_ports (parse_duration : String → Option Nat)
    (parse_addr : String → Option IpAddr) (args : Args) (pid : Nat) :
    ((args.protocol = .Udp ∨ args.protocol = .Tcp) → ∀ s t, args.source_port = some s →
        args.target_port = some t →
        derivePortDirection args.protocol args.source_port args.target_port pid
            = .error .conflictingPorts
          ∧ isOkB (try_from parse_duration parse_addr args pid) = false)
    ∧ (args.protocol = .Icmp → ∀ cfg, try_from parse_duration parse_addr args pid = .ok cfg →
        cfg.port_direction = PortDirection.none) := by
  constructor
  · intro hp s t hs ht
    have hd : derivePortDirection args.protocol args.source_port args.target_port pid
        = .error .conflictingPorts := by
      rw [hs, ht]
      exact derivePortDirection_conflict args.protocol s t pid hp
    exact ⟨hd, isOkB_false_of_derive_error _ _ _ _ _ hd⟩
  · intro hp cfg h
    have hd := (try_from_ok_inv _ _ _ _ _ h).1
    rw [hp] at hd
    cases hsp : args.source_port <;> cases htp : args.target_port <;>
      rw [hsp, htp] at hd <;> (injection hd with hd; exact hd.symm)

/-- Claim C1 (witness): the amended statement applied to a concrete Udp input
with both ports supplied. -/
theorem c1_conflicting_ports_witness :
    derivePortDirection TraceProtocol.Udp (some 80) (some 443) 500
        = .error .conflictingPorts
    ∧ isOkB (try_from testParseDuration testParseAddr udpBothPortsArgs 500) = false :=
  (c1_conflicting_ports testParseDuration testParseAddr udpBothPortsArgs 500).1
    (Or.inl rfl) 80 443 rfl rfl

/-- Claim C2 (counterexample): a Tcp input with the explicit source port 80
(below 1024) is accepted, and the produced configuration fixes that source
port; the claimed bound does not hold for Tcp. -/
theorem c2_counterexample :
    isOkB (try_from testParseDuration testParseAddr tcpLowSourceArgs 500) = true
    ∧ (cfgOf (try_from testParseDuration testParseAddr tcpLowSourceArgs 500)
        dummyConfig).port_direction = PortDirection.fixedSrc 80 := by
  constructor <;> rfl

/-- Claim C2 (amended): the source-port bound is enforced for Udp only: a Udp
input with an explicit source port below 1024 never constructs, and every
successful Udp configuration with a fixed source port has that port at
least 1024. -/
theorem c2_source_port_rule (parse_duration : String → Option Nat)
    (parse_addr : String → Option IpAddr) (args : Args) (pid : Nat) :
    (args.protocol = .Udp → ∀ s, args.source_port = some s → s < 1024 →
        isOkB (try_from parse_duration parse_addr args pid) = false)
    ∧ (∀ cfg p, try_from parse_duration parse_addr args pid = .ok cfg →
        args.protocol = .Udp → cfg.port_direction = .fixedSrc p → 1024 ≤ p) := by
  constructor
  · intro hp s hs hlt
    cases htp : args.target_port with
    | some t =>
      refine isOkB_false_of_derive_error _ _ _ _ .conflictingPorts ?_
      rw [hs, htp]
      exact derivePortDirection_conflict args.protocol s t pid (Or.inl hp)
    | none =>
      refine isOkB_false_of_derive_error _ _ _ _ (.sourcePortTooLow s) ?_
      rw [hp, hs, htp]
      simp [derivePortDirection, validate_source_port, hlt]
  · intro cfg p h hp hpd
    have hd := (try_from_ok_inv _ _ _ _ _ h).1
    rw [hp, hpd] at hd
    cases hsp : args.source_port with
    | none =>
      cases htp : args.target_port with
      | none =>
        rw [hsp, htp] at hd
        injection hd with hd
        injection hd with hd
        exact hd ▸ Nat.le_max_right pid 1024
      | some t =>
        rw [hsp, htp] at hd
        injection hd with hd
        exact PortDirection.noConfusion hd
    | some s =>
      cases htp : args.target_port with
      | none =>
        rw [hsp, htp] at hd
        by_cases hlt : s < 1024
        · rw [show derivePortDirection .Udp (some s) Option.none pid
              = .error (.sourcePortTooLow s) by
            simp [derivePortDirection, validate_source_port, hlt]] at hd
          exact Except.noConfusion hd
        · rw [show derivePortDirection .Udp (some s) Option.none pid
              = .ok (.fixedSrc s) by
            simp [derivePortDirection, validate_source_port, hlt]] at hd
          injection hd with hd
          injection hd with hd
          omega
      | some t =>
        rw [hsp, htp] at hd
        exact Except.noConfusion hd

/-- Claim C2 (witness): the amended statement applied to a concrete Udp input
with the explicit source port 80. -/
theorem c2_source_port_rule_witness :
    isOkB (try_from testParseDuration testParseAddr udpLowSourceArgs 500) = false :=
  (c2_source_port_rule testParseDuration testParseAddr udpLowSourceArgs 500).1
    rfl 80 rfl (by decide)

/-- Claim C3 (counterexample): two targets with the continuous-stream mode and
the Icmp protocol are rejected by the multi-target rule, not accepted. -/
theorem c3_counterexample :
    try_from testParseDuration testParseAddr streamTwoTargetsArgs 500
      = .error .multiTargetModeUnsupported := by
  rfl

/-- Claim C3 (amended): more than one target is accepted exactly when the mode
is the interactive Tui and the protocol is Icmp; the multi-target rule passes
precisely for at most one target or that combination, and any successful
multi-target construction has that mode and protocol. -/
theorem c3_multi_target_rule (parse_duration : String → Option Nat)
    (parse_addr : String → Option IpAddr) (args : Args) (pid : Nat) :
    (validate_multi args.mode args.protocol args.targets = .ok ()
      ↔ args.targets.length ≤ 1 ∨ (args.mode = .Tui ∧ args.protocol = .Icmp))
    ∧ (1 < args.targets.length →
        ∀ cfg, try_from parse_duration parse_addr args pid = .ok cfg →
          args.mode = .Tui ∧ args.protocol = .Icmp) := by
  constructor
  · exact validate_multi_ok_iff args.mode args.protocol args.targets
  · intro hl cfg h
    have hm := (try_from_ok_inv _ _ _ _ _ h).2.2.1
    rcases (validate_multi_ok_iff args.mode args.protocol args.targets).mp hm with hle | hok
    · omega
    · exact hok

/-- Claim C3 (witness): the amended statement applied to a concrete input with
two targets, the Tui mode and Icmp, which constructs successfully. -/
theorem c3_multi_target_rule_witness :
    Mode.Tui = Mode.Tui ∧ TraceProtocol.Icmp = TraceProtocol.Icmp :=
  (c3_multi_target_rule testParseDuration testParseAddr (baseArgs ["a", "b"]) 500).2
    (by decide)
    (cfgOf (try_from testParseDuration testParseAddr (baseArgs ["a", "b"]) 500) dummyConfig)
    rfl

/-- Claim C4 (counterexample): a continuous-stream input with a zero
report-cycle count is rejected by the report-cycle rule, even though the mode
is not finite. -/
theorem c4_counterexample :
    try_from testParseDuration testParseAddr streamZeroCyclesArgs 500
      = .error (.reportCyclesZero 0) := by
  rfl

/-- Claim C4 (amended): the report-cycle positivity rule is applied
unconditionally for every mode; an input with a zero report-cycle count never
constructs, whatever its mode. -/
theorem c4_report_cycles_rule (parse_duration : String → Option Nat)
    (parse_addr : String → Option IpAddr) (args : Args) (pid : Nat)
    (h : args.report_cycles = 0) :
    isOkB (try_from parse_duration parse_addr args pid) = false := by
  cases hr : try_from parse_duration parse_addr args pid with
  | ok cfg =>
    have hc := (try_from_ok_inv _ _ _ _ _ hr).2.2.2.2.2.2.2.2.2.1
    rw [h] at hc
    exact absurd hc (by simp [validate_report_cycles])
  | error e => rfl

/-- Claim C4 (witness): the amended statement applied to the concrete
stream-mode input with a zero report-cycle count. -/
theorem c4_report_cycles_rule_witness :
    isOkB (try_from testParseDuration testParseAddr streamZeroCyclesArgs 500) = false :=
  c4_report_cycles_rule testParseDuration testParseAddr streamZeroCyclesArgs 500 rfl

/-- Claim C5: with no explicit ports, Udp derives the fixed source port
max(seed, 1024) and Tcp the fixed destination port 80; with only a target port
given, Udp and Tcp derive that fixed destination port. -/
theorem c5_port_direction_defaults (parse_duration : String → Option Nat)
    (parse_addr : String → Option IpAddr) (args : Args) (pid : Nat) (cfg : TrippyConfig)
    (h : try_from parse_duration parse_addr args pid = .ok cfg) :
    (args.protocol = .Udp → args.source_port = Option.none → args.target_port = Option.none →
        cfg.port_direction = .fixedSrc (Nat.max pid 1024))
    ∧ (args.protocol = .Tcp → args.source_port = Option.none → args.target_port = Option.none →
        cfg.port_direction = .fixedDest 80)
    ∧ (∀ t, (args.protocol = .Udp ∨ args.protocol = .Tcp) → args.source_port = Option.none →
        args.target_port = some t → cfg.port_direction = .fixedDest t) := by
  have hd := (try_from_ok_inv _ _ _ _ _ h).1
  refine ⟨?_, ?_, ?_⟩
  · intro hp hs ht
    rw [hp, hs, ht] at hd
    injection hd with hd
    exact hd.symm
  · intro hp hs ht
    rw [hp, hs, ht] at hd
    injection hd with hd
    exact hd.symm
  · intro t hp hs ht
    rcases hp with hp | hp <;> rw [hp, hs, ht] at hd <;>
      (injection hd with hd; exact hd.symm)

/-- Claim C5 (witness): the statement applied to the concrete Udp input with no
ports and seed 500: the derived direction is the fixed source port 1024. -/
theorem c5_port_direction_defaults_witness :
    (cfgOf (try_from testParseDuration testParseAddr udpDefaultArgs 500)
        dummyConfig).port_direction = PortDirection.fixedSrc 1024 :=
  (c5_port_direction_defaults testParseDuration testParseAddr udpDefaultArgs 500
    (cfgOf (try_from testParseDuration testParseAddr udpDefaultArgs 500) dummyConfig)
    rfl).1 rfl rfl rfl

/-- Claim C7: a first ttl above the max ttl never constructs, the violated ttl
rule reports a range error, and every successful configuration satisfies
1 ≤ first_ttl ≤ max_ttl ≤ 255. -/
theorem c7_ttl_rule (parse_duration : String → Option Nat)
    (parse_addr : String → Option IpAddr) (args : Args) (pid : Nat) :
    (args.max_ttl < args.first_ttl →
        isOkB (try_from parse_duration parse_addr args pid) = false)
    ∧ (args.max_ttl < args.first_ttl →
        ∃ e, validate_ttl args.first_ttl args.max_ttl = .error e ∧ e.isRangeError = true)
    ∧ (∀ cfg, try_from parse_duration parse_addr args pid = .ok cfg →
        1 ≤ cfg.first_ttl ∧ cfg.first_ttl ≤ cfg.max_ttl ∧ cfg.max_ttl ≤ 255) := by
  refine ⟨?_, ?_, ?_⟩
  · intro hlt
    cases hr : try_from parse_duration parse_addr args pid with
    | ok cfg =>
      have ht := (try_from_ok_inv _ _ _ _ _ hr).2.2.2.1
      have hb := (validate_ttl_ok_iff _ _).mp ht
      omega
    | error e => rfl
  · intro hlt
    unfold validate_ttl
    split
    · exact ⟨_, rfl, rfl⟩
    · split
      · exact ⟨_, rfl, rfl⟩
      · exact ⟨_, rfl, rfl⟩
  · intro cfg hok
    have ht := (try_from_ok_inv _ _ _ _ _ hok).2.2.2.1
    have hft := (try_from_ok_inv _ _ _ _ _ hok).2.2.2.2.2.2.2.2.2.2.2.2.2.1
    have hmt := (try_from_ok_inv _ _ _ _ _ hok).2.2.2.2.2.2.2.2.2.2.2.2.2.2.1
    have hb := (validate_ttl_ok_iff _ _).mp ht
    rw [hft, hmt]
    omega

/-- Claim C7 (witness): the statement applied to the concrete input with
first ttl 10 and max ttl 5, which is rejected. -/
theorem c7_ttl_rule_witness :
    isOkB (try_from testParseDuration testParseAddr ttlBadArgs 500) = false :=
  (c7_ttl_rule testParseDuration testParseAddr ttlBadArgs 500).1 (by decide)

/-- Claim C8: the round-count cap of a successful configuration is absent
exactly for the Tui and Stream modes, and equals the report-cycle count
exactly for the four finite report modes. -/
theorem c8_max_rounds_rule (parse_duration : String → Option Nat)
    (parse_addr : String → Option IpAddr) (args : Args) (pid : Nat) (cfg : TrippyConfig)
    (h : try_from parse_duration parse_addr args pid = .ok cfg) :
    (cfg.max_rounds = Option.none ↔ (args.mode = .Tui ∨ args.mode = .Stream))
    ∧ (cfg.max_rounds = some args.report_cycles
        ↔ (args.mode = .Pretty ∨ args.mode = .Markdown
            ∨ args.mode = .Csv ∨ args.mode = .Json)) := by
  have hmr := (try_from_ok_inv _ _ _ _ _ h).2.2.2.2.2.2.2.2.2.2.2.2.1
  rw [hmr]
  cases hm : args.mode <;> simp [derive_max_rounds]

/-- Claim C8 (witness): the statement applied to the concrete default Tui
input: the round-count cap is absent. -/
theorem c8_max_rounds_rule_witness :
    (cfgOf (try_from testParseDuration testParseAddr (baseArgs ["a"]) 500)
        dummyConfig).max_rounds = Option.none :=
  (c8_max_rounds_rule testParseDuration testParseAddr (baseArgs ["a"]) 500
    (cfgOf (try_from testParseDuration testParseAddr (baseArgs ["a"]) 500) dummyConfig)
    rfl).1.mpr (Or.inl rfl)

/-- Claim C9: the construction is a pure function of its input, so running it
twice on the same raw input and seed yields identical results, values and
errors alike. -/
theorem c9_deterministic (parse_duration : String → Option Nat)
    (parse_addr : String → Option IpAddr) (args : Args) (pid : Nat) :
    try_from parse_duration parse_addr args pid
      = try_from parse_duration parse_addr args pid :=
  rfl

/-- Claim C10: the derived address family depends only on the ipv6 flag -
flipping ipv4 never changes the result of the construction - and a successful
configuration has family Ipv6 exactly when ipv6 is set, Ipv4 otherwise. -/
theorem c10_addr_family_rule (parse_duration : String → Option Nat)
    (parse_addr : String → Option IpAddr) (args : Args) (pid : Nat) (b : Bool) :
    try_from parse_duration parse_addr { args with ipv4 := b } pid
        = try_from parse_duration parse_addr args pid
    ∧ (∀ cfg, try_from parse_duration parse_addr args pid = .ok cfg →
        cfg.addr_family = derive_addr_family args.ipv6
        ∧ (cfg.addr_family = .Ipv6 ↔ args.ipv6 = true)) := by
  constructor
  · cases args
    rfl
  · intro cfg h
    have hf := (try_from_ok_inv _ _ _ _ _ h).2.2.2.2.2.2.2.2.2.2.2.1
    refine ⟨hf, ?_⟩
    rw [hf]
    cases hi : args.ipv6 <;> simp [derive_addr_family]

/-- Claim C10 (witness): the statement applied to the concrete default input,
whose derived address family is Ipv4. -/
theorem c10_addr_family_rule_witness :
    (cfgOf (try_from testParseDuration testParseAddr (baseArgs ["a"]) 500)
        dummyConfig).addr_family = derive_addr_family false
    ∧ ((cfgOf (try_from testParseDuration testParseAddr (baseArgs ["a"]) 500)
        dummyConfig).addr_family = TracerAddrFamily.Ipv6 ↔ (baseArgs ["a"]).ipv6 = true) :=
  (c10_addr_family_rule testParseDuration testParseAddr (baseArgs ["a"]) 500 true).2
    (cfgOf (try_from testParseDuration testParseAddr (baseArgs ["a"]) 500) dummyConfig) rfl

/-- Claim C6: once the primitive parses succeed, the validation rules run in
the fixed order address-family, multi-target, ttl, max-inflight,
round-duration, grace-duration, packet-size, refresh-rate, report-cycles,
DNS, and the first failing rule is the reported error; a port conflict is
raised at derivation time, before any of those rules. -/
theorem c6_validation_order (parse_duration : String → Option Nat)
    (parse_addr : String → Option IpAddr) (args : Args) (pid : Nat)
    (minR maxR g r dt : Nat) (sa : Option IpAddr)
    (hmin : parse_duration args.min_round_duration = some minR)
    (hmax : parse_duration args.max_round_duration = some maxR)
    (hg : parse_duration args.grace_duration = some g)
    (hsa : parse_source_address parse_addr args.source_address = .ok sa)
    (hr : parse_duration args.tui_refresh_rate = some r)
    (hdt : parse_duration args.dns_timeout = some dt) :
    (∀ pd, derivePortDirection args.protocol args.source_port args.target_port pid = .ok pd →
        ∀ e, firstError (validationSequence args minR maxR g r) = some e →
          try_from parse_duration parse_addr args pid = .error e)
    ∧ ((args.protocol = .Udp ∨ args.protocol = .Tcp) → args.source_port.isSome →
        args.target_port.isSome →
        try_from parse_duration parse_addr args pid = .error .conflictingPorts) := by
  constructor
  · intro pd hpd e he
    unfold try_from
    simp only [hmin, hmax, hg, hsa, hpd, hr, hdt]
    simp only [validationSequence] at he
    cases h1 : validate_addr_family args.protocol (derive_addr_family args.ipv6) with
    | error e1 =>
      simp only [h1, firstError, Option.some.injEq] at he
      simp only [h1]
      rw [he]
    | ok u1 =>
      cases u1
      simp only [h1, firstError] at he
      simp only [h1]
      cases h2 : validate_multi args.mode args.protocol args.targets with
      | error e2 =>
        simp only [h2, firstError, Option.some.injEq] at he
        simp only [h2]
        rw [he]
      | ok u2 =>
        cases u2
        simp only [h2, firstError] at he
        simp only [h2]
        cases h3 : validate_ttl args.first_ttl args.max_ttl with
        | error e3 =>
          simp only [h3, firstError, Option.some.injEq] at he
          simp only [h3]
          rw [he]
        | ok u3 =>
          cases u3
          simp only [h3, firstError] at he
          simp only [h3]
          cases h4 : validate_max_inflight args.max_inflight with
          | error e4 =>
            simp only [h4, firstError, Option.some.injEq] at he
            simp only [h4]
            rw [he]
          | ok u4 =>
            cases u4
            simp only [h4, firstError] at he
            simp only [h4]
            cases h5 : validate_round_duration minR maxR with
            | error e5 =>
              simp only [h5, firstError, Option.some.injEq] at he
              simp only [h5]
              rw [he]
            | ok u5 =>
              cases u5
              simp only [h5, firstError] at he
              simp only [h5]
              cases h6 : validate_grace_duration g with
              | error e6 =>
                simp only [h6, firstError, Option.some.injEq] at he
                simp only [h6]
                rw [he]
              | ok u6 =>
                cases u6
                simp only [h6, firstError] at he
                simp only [h6]
                cases h7 : validate_packet_size args.packet_size with
                | error e7 =>
                  simp only [h7, firstError, Option.some.injEq] at he
                  simp only [h7]
                  rw [he]
                | ok u7 =>
                  cases u7
                  simp only [h7, firstError] at he
                  simp only [h7]
                  cases h8 : validate_tui_refresh_rate r with
                  | error e8 =>
                    simp only [h8, firstError, Option.some.injEq] at he
                    simp only [h8]
                    rw [he]
                  | ok u8 =>
                    cases u8
                    simp only [h8, firstError] at he
                    simp only [h8]
                    cases h9 : validate_report_cycles args.report_cycles with
                    | error e9 =>
                      simp only [h9, firstError, Option.some.injEq] at he
                      simp only [h9]
                      rw [he]
                    | ok u9 =>
                      cases u9
                      simp only [h9, firstError] at he
                      simp only [h9]
                      cases h10 : validate_dns args.dns_resolve_method args.dns_lookup_as_info with
                      | error e10 =>
                        simp only [h10, firstError, Option.some.injEq] at he
                        simp only [h10]
                        rw [he]
                      | ok u10 =>
                        cases u10
                        simp only [h10, firstError] at he
                        simp only [h10]
                        exact Option.noConfusion he
  · intro hp hs ht
    rcases Option.isSome_iff_exists.mp hs with ⟨s, hs2⟩
    rcases Option.isSome_iff_exists.mp ht with ⟨t, ht2⟩
    have hd : derivePortDirection args.protocol args.source_port args.target_port pid
        = .error .conflictingPorts := by
      rw [hs2, ht2]
      exact derivePortDirection_conflict args.protocol s t pid hp
    unfold try_from
    simp only [hmin, hmax, hg, hsa, hd]


/-- Claim C6 (witness): the statement applied to a concrete input violating
both the ttl rule and the packet-size rule; the earlier ttl rule wins. -/
theorem c6_validation_order_witness :
    try_from testParseDuration testParseAddr ttlAndPacketBadArgs 500
      = .error (.ttlOrderInvalid 10 5) :=
  (c6_validation_order testParseDuration testParseAddr ttlAndPacketBadArgs 500
    1000000000 1000000000 100000000 100000000 5000000000 Option.none
    rfl rfl rfl rfl rfl rfl).1 PortDirection.none rfl (.ttlOrderInvalid 10 5) (by decide)

end Trippy
